import Mathlib

/-
Shallow embedding of the SAS SQLAlchemy dialect found in
`spinta/datasets/backends/sql/backends/sas/` (helpers.py, dialect.py,
introspection.py, components.py, commands/column.py).

Python scalar values are modelled by `PyVal`; Python truthiness, `int()`
conversion, `str.upper()/lower()/strip()` are modelled by the `py*`
helpers below (upper/lower use the ASCII case maps, which cover SAS
identifiers and format strings).  Strings that the source builds with
f-strings are reproduced verbatim, with the single-quote character
written as the escape \x27.
-/

/-- Python-like scalar values: `None`, ints, `str`, and `bytes`.
A `pbytes` carries the string its UTF-8 decoding (errors replaced)
produces, which is all the introspection code ever looks at. -/
inductive PyVal where
  | pnone : PyVal
  | pnum (n : Int) : PyVal
  | pstr (s : String) : PyVal
  | pbytes (s : String) : PyVal
deriving DecidableEq, Repr

/-- Python exception classes that the embedded code can raise. -/
inductive PyErr where
  | valueError
  | typeError
  | indexError
  | attributeError
  | dbError (msg : String)
deriving DecidableEq, Repr

/-- Python truthiness of a scalar (`bool(v)`). -/
def pyTruthy : PyVal → Bool
  | .pnone => false
  | .pnum n => n != 0
  | .pstr s => s != ""
  | .pbytes s => s != ""

/-- Truthiness of an optional string (`None` and `""` are falsy). -/
def strTruthy : Option String → Bool
  | none => false
  | some s => s != ""

/-- Characters `str.strip`/`str.rstrip` remove (Python whitespace set). -/
def pyIsSpace (c : Char) : Bool :=
  c == ' ' || c == '\t' || c == '\n' || c == '\r' || c == '\x0b' || c == '\x0c'

/-- `str.upper()` (ASCII case map). -/
def pyUpper (s : String) : String := String.mk (s.data.map Char.toUpper)

/-- `str.lower()` (ASCII case map). -/
def pyLower (s : String) : String := String.mk (s.data.map Char.toLower)

/-- `str.rstrip()`: drop trailing whitespace. -/
def pyRstrip (s : String) : String :=
  String.mk ((s.data.reverse.dropWhile pyIsSpace).reverse)

/-- `str.strip()`: drop leading and trailing whitespace. -/
def pyStrip (s : String) : String :=
  String.mk (((s.data.dropWhile pyIsSpace).reverse.dropWhile pyIsSpace).reverse)

/-- `str(v)` for the scalar values the code stringifies. -/
def pyStr : PyVal → String
  | .pnone => "None"
  | .pnum n => toString n
  | .pstr s => s
  | .pbytes s => s

/-- `int(v)`: ints pass through, strings are parsed (whitespace allowed,
`ValueError` on garbage), `None` and bytes raise `TypeError`. -/
def pyToInt : PyVal → Except PyErr Int
  | .pnum n => .ok n
  | .pstr s =>
    match (pyStrip s).toInt? with
    | some n => .ok n
    | none => .error .valueError
  | .pbytes _ => .error .typeError
  | .pnone => .error .typeError

/-- Does `needle` start `hay` (list-of-chars version of `str.startswith`)? -/
def listStarts : List Char → List Char → Bool
  | [], _ => true
  | _ :: _, [] => false
  | a :: as, b :: bs => a == b && listStarts as bs

/-- Does `n` occur as a contiguous run inside the second list? -/
def listHasSub (n : List Char) : List Char → Bool
  | [] => n.isEmpty
  | c :: rest => listStarts n (c :: rest) || listHasSub n rest

/-- Python `needle in hay` on strings (substring containment). -/
def pyIn (needle hay : String) : Bool := listHasSub needle.data hay.data

/-- Python `s.startswith(p)`. -/
def pyStartsWith (s p : String) : Bool := listStarts p.data s.data

/-
== helpers.py : map_sas_type_to_sqlalchemy ==
-/

/-- The SQLAlchemy type values the mapper can produce.  `sasString`
stands for `SASStringType(length=...)`; the date/datetime/time
constructors stand for the SAS epoch-decoding types. -/
inductive SAType where
  | INTEGER
  | FLOAT
  | NUMERIC
  | TEXT
  | VARBINARY
  | sasString (length : Int)
  | sasDate
  | sasDateTime
  | sasTime
deriving DecidableEq, Repr

/-- Cache key: the `(col_type, length, format_str)` triple exactly as the
arguments were passed (the source computes the key before lowering or
defaulting them). -/
abbrev TypeCacheKey := String × PyVal × Option String

/-- The optional memoization dictionary, as an insertion-ordered
association list. -/
abbrev TypeCache := List (TypeCacheKey × SAType)

/-- Dictionary lookup `cache[key]` (`None` when absent). -/
def cacheFind : TypeCache → TypeCacheKey → Option SAType
  | [], _ => none
  | (k, v) :: rest, key => if k = key then some v else cacheFind rest key

/-- Dictionary store `cache[key] = value`. -/
def cacheStore : TypeCache → TypeCacheKey → SAType → TypeCache
  | [], k, v => [(k, v)]
  | (k0, v0) :: rest, k, v =>
    if k0 = k then (k0, v) :: rest else (k0, v0) :: cacheStore rest k v

/-- Keyword lists of the numeric-format dispatch in
`map_sas_type_to_sqlalchemy`, in source order. -/
def dateFormatKeywords : List String := ["DATE", "YEAR", "MMDDYY", "DDMMYY", "E8601DA"]

def datetimeFormatKeywords : List String := ["DATETIME", "E8601DT"]

def timeFormatKeywords : List String := ["TIME", "E8601TM"]

def currencyFormatKeywords : List String := ["DOLLAR", "NLMNY"]

/-- The body of `map_sas_type_to_sqlalchemy` after the cache check
(helpers.py lines 45-90): lowercase the storage class, uppercase the
format, then dispatch. -/
def computeSAType (colType : String) (length : PyVal) (formatStr : Option String) : SAType :=
  let ct := pyLower colType
  let fmt := if strTruthy formatStr then pyUpper (formatStr.getD "") else ""
  if ct = "char" then
    if pyStartsWith fmt "$HEX" then .VARBINARY
    else if fmt = "$GEOREF" then .TEXT
    else
      let lengthInt : Int :=
        if pyTruthy length then
          match pyToInt length with
          | .ok n => n
          | .error _ => 255
        else 255
      .sasString lengthInt
  else if ct = "num" then
    if dateFormatKeywords.any (fun f => pyIn f fmt) then .sasDate
    else if datetimeFormatKeywords.any (fun f => pyIn f fmt) then .sasDateTime
    else if timeFormatKeywords.any (fun f => pyIn f fmt) then .sasTime
    else if currencyFormatKeywords.any (fun f => pyIn f fmt) then .NUMERIC
    else
      let lengthInt : Int :=
        if pyTruthy length then
          match pyToInt length with
          | .ok n => n
          | .error _ => 8
        else 8
      if lengthInt < 8 && !(pyIn "." fmt) then .INTEGER else .FLOAT
  else .TEXT

/-- `map_sas_type_to_sqlalchemy(col_type, length, format_str, cache)`.
The Python function mutates the optional cache dict in place; here the
(possibly updated) cache is returned alongside the type. -/
def map_sas_type_to_sqlalchemy (colType : String) (length : PyVal) (formatStr : Option String)
    (cache : Option TypeCache) : SAType × Option TypeCache :=
  let cacheKey : TypeCacheKey := (colType, length, formatStr)
  match cache with
  | some c =>
    match cacheFind c cacheKey with
    | some t => (t, some c)
    | none =>
      let t := computeSAType colType length formatStr
      (t, some (cacheStore c cacheKey t))
  | none => (computeSAType colType length formatStr, none)

/-
== dialect.py : SASCompiler ==

The compiler state the source manipulates is the single transient
attribute `_sas_current_limit` on the compiler instance; nothing else of
the SQLAlchemy compiler state is touched by the overrides, so the state
type carries exactly that field.
-/

/-- The compiler instance state: the `_sas_current_limit` attribute
(`none` models both "attribute absent" and `None`, exactly what
`getattr(self, "_sas_current_limit", None)` reads). -/
structure CompilerState where
  sasCurrentLimit : Option Nat
deriving DecidableEq, Repr

/- A SELECT statement as far as the overrides look at it: the rendered
column expressions, the FROM-clause members, and `_limit`. -/
mutual
inductive SASSelect : Type where
  | mk (cols : List String) (froms : List SASFrom) (limit : Option Nat)

inductive SASFrom : Type where
  | table (sch tbl : String)
  | subquery (s : SASSelect)
end

/-- `getattr(select, "_limit", None)`. -/
def SASSelect.limit : SASSelect → Option Nat
  | .mk _ _ l => l

/-- `SASCompiler.visit_table` (dialect.py lines 114-159): the parent
renders the schema-qualified name (SAS never quotes identifiers), and
when the table is a FROM member and `_sas_current_limit` is set the
`(OBS=n)` option is appended. -/
def visit_table (st : CompilerState) (sch tbl : String) (asfrom : Bool) : String :=
  let result := sch ++ "." ++ tbl
  if asfrom then
    match st.sasCurrentLimit with
    | some n => result ++ " (OBS=" ++ toString n ++ ")"
    | none => result
  else result

/-- `SASCompiler.limit_clause` (dialect.py lines 161-179): always the
empty string. -/
def limit_clause (_select : SASSelect) : String := ""

/-- `SASCompiler.visit_select` with the call to `super().visit_select`
abstracted: save the old `_sas_current_limit`, install the statement
limit, run the parent (which may return normally or raise, and may
itself update the state), and restore the saved value on either exit
path (the `try`/`finally` of dialect.py lines 96-112). -/
def sasVisitSelect
    (superVisit : CompilerState → SASSelect → Except PyErr String × CompilerState)
    (st : CompilerState) (s : SASSelect) : Except PyErr String × CompilerState :=
  let oldLimit := st.sasCurrentLimit
  let st1 : CompilerState := { st with sasCurrentLimit := s.limit }
  let res := superVisit st1 s
  (res.1, { res.2 with sasCurrentLimit := oldLimit })

/- Concrete compilation of a statement, instantiating the parent
compiler with SQLAlchemy's assembly of a SELECT: the column list, the
comma-joined FROM members (each rendered via `visit_table` with
`asfrom=True`, or recursively as a parenthesized sub-select), and the
dialect's `limit_clause` when the statement has a limit.  State is
threaded exactly as the source's save/set/restore does. -/
mutual
def compileSelect (st : CompilerState) (s : SASSelect) : String × CompilerState :=
  match s with
  | .mk cols froms lim =>
    let oldLimit := st.sasCurrentLimit
    let st1 : CompilerState := { st with sasCurrentLimit := lim }
    let rendered := compileFroms st1 froms
    let text := "SELECT " ++ String.intercalate ", " cols ++ " FROM " ++
      String.intercalate ", " rendered.1 ++
      (match lim with
       | some _ => limit_clause s
       | none => "")
    (text, { rendered.2 with sasCurrentLimit := oldLimit })

def compileFroms (st : CompilerState) (fs : List SASFrom) : List String × CompilerState :=
  match fs with
  | [] => ([], st)
  | f :: rest =>
    let r1 := compileFrom st f
    let r2 := compileFroms r1.2 rest
    (r1.1 :: r2.1, r2.2)

def compileFrom (st : CompilerState) (f : SASFrom) : String × CompilerState :=
  match f with
  | .table sch tbl => (visit_table st sch tbl true, st)
  | .subquery s =>
    let r := compileSelect st s
    ("(" ++ r.1 ++ ")", r.2)
end

/-
== dialect.py : SASDialect.create_connect_args, normalize_name ==
-/

/-- The fields of a parsed SQLAlchemy URL that the dialect reads. -/
structure SAUrl where
  host : Option String
  port : Option Nat
  username : Option String
  password : Option String
  database : Option String
  query : List (String × String)
deriving DecidableEq, Repr

/-- Association-list lookup for string-keyed dicts (`d.get(k)`). -/
def lookupProp : List (String × String) → String → Option String
  | [], _ => none
  | (k, v) :: rest, key => if k = key then some v else lookupProp rest key

/-- The `kwargs` of the `((), kwargs)` pair `create_connect_args`
returns (the `jars` entry is present only when the log4j configuration
file exists next to the module). -/
structure ConnectKwargs where
  jclassname : String
  url : String
  driver_args : List (String × String)
  jars : Option (List String)
deriving DecidableEq, Repr

/-- Render a value into an f-string the way Python does (`None` prints
as `"None"`). -/
def fstrOptStr : Option String → String
  | none => "None"
  | some s => s

/-- `SASDialect.create_connect_args` (dialect.py lines 326-401).  The
filesystem probe for `log4j.properties` is abstracted into `log4j`,
carrying the absolute config path and the module directory when the
file exists.  Library names from the URL path or query are deliberately
NOT placed into `driver_args` (source lines 362-364). -/
def create_connect_args (log4j : Option (String × String)) (url : SAUrl) : ConnectKwargs :=
  let jdbcUrl := "jdbc:sasiom://" ++ fstrOptStr url.host ++
    (match url.port with
     | some p => if p != 0 then ":" ++ toString p else ""
     | none => "")
  let driverArgs : List (String × String) :=
    [("user", if strTruthy url.username then url.username.getD "" else ""),
     ("password", if strTruthy url.password then url.password.getD "" else ""),
     ("applyFormats", "false")] ++
    (match log4j with
     | some cfg => [("log4j.configuration", "file://" ++ cfg.1)]
     | none => [])
  let jars : Option (List String) :=
    match log4j with
    | some cfg => some [cfg.2]
    | none => none
  { jclassname := "com.sas.rio.MVADriver"
    url := jdbcUrl
    driver_args := driverArgs
    jars := jars }

/-- `SASDialect.normalize_name` (dialect.py lines 429-445). -/
def normalize_name (name : Option String) : Option String :=
  if strTruthy name then some (pyRstrip (pyUpper (name.getD ""))) else name

/-- `SASDialect.denormalize_name` (dialect.py lines 447-461). -/
def denormalize_name (name : Option String) : Option String :=
  if strTruthy name then some (pyLower (name.getD "")) else name

/-
== components.py : SAS.__init__ ==
-/

/-- Modelled from the spec: the base SQL backend constructor
(`spinta.datasets.backends.sql.components.Sql`, repository code not
included under src/) resolves the default library (`dbschema`) from the
connection URL path segment when none was configured (spec 4.4:
"resolve a default library name from the URL path segment first, then
the query parameter"). -/
def baseSqlDbschema (configured : Option String) (url : SAUrl) : Option String :=
  if strTruthy configured then configured
  else if strTruthy url.database then url.database
  else none

/-- `SAS.__init__` (components.py lines 36-50), run after the base
constructor: when a DSN is present and `dbschema` is still unset, a
truthy `libname` query parameter fills it. -/
def sasInitDbschema (configured : Option String) (dsn : Option SAUrl) : Option String :=
  let dbschema :=
    match dsn with
    | some u => baseSqlDbschema configured u
    | none => configured
  match dsn with
  | some u =>
    if strTruthy dbschema then dbschema
    else
      match lookupProp u.query "libname" with
      | some l => if l != "" then some l else dbschema
      | none => dbschema
  | none => dbschema

/-
== commands/column.py : get_column ==
-/

/-- `prop.external`: the external-name mapping attached to a property
(its `name` may itself be `None` or empty). -/
structure PropExternal where
  name : Option String
deriving DecidableEq, Repr

/-- The slice of a Spinta `Property` the column commands read. -/
structure ModelProp where
  pname : String
  modelName : String
  external : Option PropExternal
deriving DecidableEq, Repr

/-- The failures `get_column` can raise. -/
inductive SpintaErr where
  | noExternalName (propName : String)
  | propertyNotFound (model propName extName : String)
deriving DecidableEq, Repr

/-- A column of a reflected table (`table.c` member). -/
structure SAColumn where
  name : String
deriving DecidableEq, Repr

/-- A reflected table: its columns in order, keyed by name. -/
structure SATable where
  columns : List SAColumn
deriving DecidableEq, Repr

/-- `_get_case_insensitive_column` (column.py lines 9-25): exact name
match first, then a case-insensitive scan, then `PropertyNotFound`. -/
def getCaseInsensitiveColumn (table : SATable) (name : String) (prop : ModelProp) :
    Except SpintaErr SAColumn :=
  match table.columns.find? (fun c => c.name == name) with
  | some c => .ok c
  | none =>
    match table.columns.find? (fun c => pyUpper c.name == pyUpper name) with
    | some c => .ok c
    | none => .error (.propertyNotFound prop.modelName prop.pname name)

/-- `get_column` registered for `(SAS, DataType)` (column.py lines
28-34): a missing or falsy external name raises `NoExternalName`. -/
def get_column_dtype (prop : ModelProp) (table : SATable) : Except SpintaErr (Option SAColumn) :=
  match prop.external with
  | none => .error (.noExternalName prop.pname)
  | some ext =>
    if strTruthy ext.name then
      (getCaseInsensitiveColumn table (ext.name.getD "") prop).map some
    else .error (.noExternalName prop.pname)

/-- `get_column` registered for `(SAS, Ref)` (column.py lines 37-58):
`not prop.external or (not prop.external.name and not dtype.inherited)`
raises `NoExternalName`; with a truthy name the lookup runs; an
inherited relationship with no name returns `None`. -/
def get_column_ref (inherited : Bool) (prop : ModelProp) (table : SATable) :
    Except SpintaErr (Option SAColumn) :=
  match prop.external with
  | none => .error (.noExternalName prop.pname)
  | some ext =>
    if !strTruthy ext.name && !inherited then .error (.noExternalName prop.pname)
    else if strTruthy ext.name then
      (getCaseInsensitiveColumn table (ext.name.getD "") prop).map some
    else .ok none

/-
== introspection.py : SASIntrospectionMixin ==

A connection is modelled by the one operation the mixin uses: executing
a literal SQL string, which either yields all result rows or raises.
-/

/-- A result row as the JDBC bridge delivers it. -/
abbrev Row := List PyVal

/-- The connection behaviour: `connection.execute(query)`. -/
abbrev Conn := String → Except PyErr (List Row)

/-- `row[i]` (raises `IndexError` past the end). -/
def rowGet (r : Row) (i : Nat) : Except PyErr PyVal :=
  match r.get? i with
  | some v => .ok v
  | none => .error .indexError

/-- `_safe_value_to_str` (introspection.py lines 19-25): `None` passes
through, bytes are UTF-8 decoded, everything else is stringified. -/
def safe_value_to_str : PyVal → Option String
  | .pnone => none
  | .pbytes s => some s
  | v => some (pyStr v)

/-- `.strip()` called on the result of `_safe_value_to_str`: on `None`
this is an `AttributeError`. -/
def optStrip : Option String → Except PyErr String
  | none => .error .attributeError
  | some s => .ok (pyStrip s)

/-- `_escape_param` (introspection.py lines 27-34): double every single
quote (`None` becomes the empty string). -/
def escape_param (v : Option String) : String :=
  match v with
  | none => ""
  | some s => String.mk (s.data.foldr
      (fun c acc => if c = '\x27' then '\x27' :: '\x27' :: acc else c :: acc) [])

/-- `schema = schema if schema is not None else self.default_schema_name`. -/
def resolvedSchema (schema dflt : Option String) : Option String :=
  match schema with
  | none => dflt
  | some s => some s

/-- `self._escape_param(schema.upper() if schema else '')`. -/
def libnameVal (schema dflt : Option String) : String :=
  let sch := resolvedSchema schema dflt
  escape_param (some (if strTruthy sch then pyUpper (sch.getD "") else ""))

/-- `self._escape_param(table_name.upper())`. -/
def memnameVal (tableName : String) : String :=
  escape_param (some (pyUpper tableName))

/-- The literal query of `get_schema_names`. -/
def schemaNamesQuery : String :=
  "SELECT DISTINCT libname FROM dictionary.libnames ORDER BY libname"

/-- The literal f-string query of `get_table_names`. -/
def tableNamesQuery (lib : String) : String :=
  "\n            SELECT memname\n            FROM dictionary.tables\n            WHERE libname = \x27" ++
  lib ++ "\x27 AND memtype = \x27DATA\x27\n            ORDER BY memname\n            "

/-- The literal f-string query of `get_view_names`. -/
def viewNamesQuery (lib : String) : String :=
  "\n            SELECT memname\n            FROM dictionary.tables\n            WHERE libname = \x27" ++
  lib ++ "\x27 AND memtype = \x27VIEW\x27\n            ORDER BY memname\n            "

/-- The literal f-string query of `get_columns`. -/
def columnsQuery (lib mem : String) : String :=
  "\n            SELECT\n                name,\n                type,\n                length,\n                format,\n                label,\n                notnull\n            FROM dictionary.columns\n            WHERE libname = \x27" ++
  lib ++ "\x27 AND memname = \x27" ++ mem ++
  "\x27\n            ORDER BY varnum\n            "

/-- The literal f-string query of `get_indexes`. -/
def indexesQuery (lib mem : String) : String :=
  "\n            SELECT\n                indxname,\n                name,\n                unique\n            FROM dictionary.indexes\n            WHERE libname = \x27" ++
  lib ++ "\x27 AND memname = \x27" ++ mem ++
  "\x27\n            ORDER BY indxname, indxpos\n            "

/-- The literal f-string query of `get_table_comment`. -/
def tableCommentQuery (lib mem : String) : String :=
  "\n            SELECT memlabel\n            FROM dictionary.tables\n            WHERE libname = \x27" ++
  lib ++ "\x27 AND memname = \x27" ++ mem ++ "\x27\n            "

/-- The literal f-string query of `has_table`. -/
def hasTableQuery (lib mem : String) : String :=
  "\n            SELECT COUNT(*)\n            FROM dictionary.tables\n            WHERE libname = \x27" ++
  lib ++ "\x27 AND memname = \x27" ++ mem ++
  "\x27 AND memtype = \x27DATA\x27\n            "

/-- `get_schema_names` (introspection.py lines 36-46): stringify the
first field of each row; any failure degrades to the empty list. -/
def get_schema_names (conn : Conn) : List (Option String) :=
  match (do
    let rows ← conn schemaNamesQuery
    rows.mapM (fun r => do
      let v ← rowGet r 0
      pure (safe_value_to_str v)) : Except PyErr (List (Option String))) with
  | .ok l => l
  | .error _ => []

/-- `get_table_names` (introspection.py lines 48-71). -/
def get_table_names (conn : Conn) (schema dflt : Option String) : List String :=
  match (do
    let rows ← conn (tableNamesQuery (libnameVal schema dflt))
    rows.mapM (fun r => do
      let v ← rowGet r 0
      optStrip (safe_value_to_str v)) : Except PyErr (List String)) with
  | .ok l => l
  | .error _ => []

/-- `get_view_names` (introspection.py lines 73-93). -/
def get_view_names (conn : Conn) (schema dflt : Option String) : List String :=
  match (do
    let rows ← conn (viewNamesQuery (libnameVal schema dflt))
    rows.mapM (fun r => do
      let v ← rowGet r 0
      optStrip (safe_value_to_str v)) : Except PyErr (List String)) with
  | .ok l => l
  | .error _ => []

/-- One entry of the list `get_columns` returns. -/
structure ColumnInfo where
  name : Option String
  type : SAType
  nullable : Bool
  default : Option PyVal
  comment : Option String
deriving DecidableEq, Repr

/-- Processing of one `dictionary.columns` row inside `get_columns`
(introspection.py lines 122-144), also updating the dialect-level type
cache. -/
def getColumnsRow (r : Row) (cache : TypeCache) : Except PyErr (ColumnInfo × TypeCache) := do
  let v0 ← rowGet r 0
  let v1 ← rowGet r 1
  let v2 ← rowGet r 2
  let v3 ← rowGet r 3
  let v4 ← rowGet r 4
  let v5 ← rowGet r 5
  let colName := safe_value_to_str v0
  let colType := safe_value_to_str v1
  let colLength := safe_value_to_str v2
  let colFormat := safe_value_to_str v3
  let colLabel := safe_value_to_str v4
  let colNotnull := pyTruthy v5
  -- map_sas_type_to_sqlalchemy lowercases col_type; on None that
  -- attribute access raises inside the try block
  let ct ← match colType with
    | some s => Except.ok s
    | none => Except.error PyErr.attributeError
  let mapped := map_sas_type_to_sqlalchemy ct
    (match colLength with
     | some s => .pstr s
     | none => .pnone)
    colFormat (some cache)
  let info : ColumnInfo :=
    { name := colName
      type := mapped.1
      nullable := !colNotnull
      default := none
      comment := if strTruthy colLabel then colLabel else none }
  pure (info, mapped.2.getD cache)

/-- Row loop of `get_columns`: mutations of the cache made before a
failing row survive, as they do on the Python dialect object. -/
def getColumnsRows (rows : List Row) (acc : List ColumnInfo) (cache : TypeCache) :
    Except PyErr (List ColumnInfo) × TypeCache :=
  match rows with
  | [] => (.ok acc, cache)
  | r :: rest =>
    match getColumnsRow r cache with
    | .ok rc => getColumnsRows rest (acc ++ [rc.1]) rc.2
    | .error e => (.error e, cache)

/-- `get_columns` (introspection.py lines 95-149), returning the column
list together with the updated type-mapping cache. -/
def get_columns (cache : TypeCache) (conn : Conn) (tableName : String) (schema dflt : Option String) :
    List ColumnInfo × TypeCache :=
  match conn (columnsQuery (libnameVal schema dflt) (memnameVal tableName)) with
  | .error _ => ([], cache)
  | .ok rows =>
    match getColumnsRows rows [] cache with
    | (.ok infos, cache1) => (infos, cache1)
    | (.error _, cache1) => ([], cache1)

/-- One entry of the list `get_indexes` returns. -/
structure IndexInfo where
  name : Option String
  column_names : List (Option String)
  unique : Bool
deriving DecidableEq, Repr

/-- Insertion-ordered accumulation of the `indexes` dict inside
`get_indexes`: a new index name appends an entry, an existing one gets
the column appended (its `unique` flag keeps the first row's value). -/
def indexesInsert (acc : List (Option String × IndexInfo)) (idxName colName : Option String)
    (isUnique : Bool) : List (Option String × IndexInfo) :=
  match acc with
  | [] => [(idxName, { name := idxName, column_names := [colName], unique := isUnique })]
  | (k, info) :: rest =>
    if k = idxName then
      (k, { info with column_names := info.column_names ++ [colName] }) :: rest
    else
      (k, info) :: indexesInsert rest idxName colName isUnique

/-- `get_indexes` (introspection.py lines 157-191). -/
def get_indexes (conn : Conn) (tableName : String) (schema dflt : Option String) : List IndexInfo :=
  match (do
    let rows ← conn (indexesQuery (libnameVal schema dflt) (memnameVal tableName))
    rows.foldlM (fun (acc : List (Option String × IndexInfo)) r => do
      let v0 ← rowGet r 0
      let v1 ← rowGet r 1
      let v2 ← rowGet r 2
      pure (indexesInsert acc (safe_value_to_str v0) (safe_value_to_str v1) (pyTruthy v2)))
      [] : Except PyErr (List (Option String × IndexInfo))) with
  | .ok acc => acc.map Prod.snd
  | .error _ => []

/-- The `{"text": ...}` dict `get_table_comment` returns. -/
structure TableCommentResult where
  text : Option String
deriving DecidableEq, Repr

/-- `get_table_comment` (introspection.py lines 193-214): first row's
first field, stripped, when the row and the value are truthy. -/
def get_table_comment (conn : Conn) (tableName : String) (schema dflt : Option String) :
    TableCommentResult :=
  match (do
    let rows ← conn (tableCommentQuery (libnameVal schema dflt) (memnameVal tableName))
    match rows.head? with
    | some r =>
      if r.isEmpty then pure { text := none }
      else do
        let v ← rowGet r 0
        if pyTruthy v then do
          let s ← optStrip (safe_value_to_str v)
          pure { text := some s }
        else pure { text := none }
    | none => pure { text := none } : Except PyErr TableCommentResult) with
  | .ok res => res
  | .error _ => { text := none }

/-- `has_table` (introspection.py lines 216-234): count of `DATA`
members with the given name; any failure degrades to `False`. -/
def has_table (conn : Conn) (tableName : String) (schema dflt : Option String) : Bool :=
  match (do
    let rows ← conn (hasTableQuery (libnameVal schema dflt) (memnameVal tableName))
    match rows.head? with
    | some r =>
      if r.isEmpty then pure false
      else do
        let v ← rowGet r 0
        let n ← pyToInt v
        pure (n > 0)
    | none => pure false : Except PyErr Bool) with
  | .ok b => b
  | .error _ => false

/-
== DICTIONARY.TABLES semantics used by claim C10 ==
-/

/-- One row of the external store's `DICTIONARY.TABLES` catalog. -/
structure DictEntry where
  libname : String
  memname : String
  memtype : String
deriving DecidableEq, Repr

/-- The count `has_table`'s query asks the catalog for: members of the
library with the given name and `memtype = 'DATA'`. -/
def dictDataCount (cat : List DictEntry) (lib mem : String) : Nat :=
  (cat.filter (fun en => en.libname == lib && en.memname == mem && en.memtype == "DATA")).length

/-- The rows `get_view_names`'s query receives: one single-field row per
`VIEW` member of the library. -/
def dictViewRows (cat : List DictEntry) (lib : String) : List Row :=
  (cat.filter (fun en => en.libname == lib && en.memtype == "VIEW")).map
    (fun en => [PyVal.pstr en.memname])

/-- A connection whose every execution raises. -/
def failingConn : Conn := fun _ => .error (.dbError "connection failure")

/-- A connection serving a catalog that holds the single member
`LIB1.V1` of type `VIEW`. -/
def viewOnlyConn : Conn := fun q =>
  if q = hasTableQuery "LIB1" "V1" then .ok [[.pnum 0]]
  else if q = viewNamesQuery "LIB1" then .ok [[.pstr "V1"]]
  else .error (.dbError "no such query")

/-
== Theorems ==
-/

/-- The concrete compiler returns the state it was entered with: the
`finally` block writes the saved `_sas_current_limit` back. -/
theorem compileSelect_state (st : CompilerState) (s : SASSelect) :
    (compileSelect st s).2 = st := by
  cases s with
  | mk cols froms lim => rfl

/-- Rendering one FROM member (a table or a whole sub-select) leaves the
compiler state unchanged. -/
theorem compileFrom_state (st : CompilerState) (f : SASFrom) : (compileFrom st f).2 = st := by
  cases f with
  | table sch tbl => rfl
  | subquery s => simpa [compileFrom] using compileSelect_state st s

/-- Rendering the FROM list threads an unchanged state, so every member
is rendered under the state in force when the list was entered. -/
theorem compileFroms_eq (st : CompilerState) (fs : List SASFrom) :
    compileFroms st fs = (fs.map (fun f => (compileFrom st f).1), st) := by
  induction fs with
  | nil => rfl
  | cons f rest ih => simp [compileFroms, compileFrom_state, ih]

/-- Closed form of statement compilation: the text is the column list
followed by the FROM members rendered under the statement's own limit,
with nothing after them (the limit-clause hook contributes `""`), and
the state is restored. -/
theorem compileSelect_eq (st : CompilerState) (cols : List String) (froms : List SASFrom)
    (lim : Option Nat) :
    compileSelect st (.mk cols froms lim) =
      ("SELECT " ++ String.intercalate ", " cols ++ " FROM " ++
        String.intercalate ", " (froms.map (fun f => (compileFrom ⟨lim⟩ f).1)), st) := by
  cases st with
  | mk c =>
    simp only [compileSelect, compileFroms_eq, limit_clause]
    cases lim <;> simp

/-- C3: compiling a SELECT with row limit `n` renders every table
reference that is a FROM-clause member as the schema-qualified name
immediately followed by the text ` (OBS=n)`; the `limit_clause` hook
returns the empty string for every select, and the compiled statement
is exactly the column list and the FROM members, with no trailing
LIMIT/OFFSET text appended. -/
theorem sas_C3_limit_as_obs_table_option (st : CompilerState) (cols : List String)
    (froms : List SASFrom) (n : Nat) :
    (∀ sch tbl : String, (compileFrom ⟨some n⟩ (.table sch tbl)).1 =
      sch ++ "." ++ tbl ++ " (OBS=" ++ toString n ++ ")") ∧
    (∀ s : SASSelect, limit_clause s = "") ∧
    compileSelect st (.mk cols froms (some n)) =
      ("SELECT " ++ String.intercalate ", " cols ++ " FROM " ++
        String.intercalate ", " (froms.map (fun f => (compileFrom ⟨some n⟩ f).1)), st) :=
  ⟨fun _ _ => rfl, fun _ => rfl, compileSelect_eq st cols froms (some n)⟩

/-- C4: `visit_select` restores `_sas_current_limit` on exit to exactly
its entry value whatever the parent call does, normal return and raised
exception alike (the `Except` outcome of the parent passes through
unchanged while the state is restored), the parent runs under the
statement's own limit; and concretely, rendering an inner FROM member
(including a whole nested sub-select) leaves the enclosing state
untouched, so every remaining table reference of the enclosing FROM
list still observes the enclosing statement's limit. -/
theorem sas_C4_current_limit_restored
    (superVisit : CompilerState → SASSelect → Except PyErr String × CompilerState)
    (st : CompilerState) (s : SASSelect) (f : SASFrom) (fs : List SASFrom) :
    ((sasVisitSelect superVisit st s).2).sasCurrentLimit = st.sasCurrentLimit ∧
    (sasVisitSelect superVisit st s).1 =
      (superVisit { st with sasCurrentLimit := s.limit } s).1 ∧
    (compileFrom st f).2 = st ∧
    compileFroms st fs = (fs.map (fun g => (compileFrom st g).1), st) :=
  ⟨rfl, rfl, compileFrom_state st f, compileFroms_eq st fs⟩

/-- C2: evaluation of the five example mappings.  Four hold as claimed;
the fifth does not: a numeric column formatted `DATETIME20.` maps to the
date type, not the datetime type, because the date-keyword check runs
first and `DATE` is a substring of `DATETIME20.`. -/
theorem sas_C2_example_mappings_eval :
    (map_sas_type_to_sqlalchemy "num" (.pnum 8) (some "DATE9.") none).1 = .sasDate ∧
    (map_sas_type_to_sqlalchemy "num" (.pnum 4) none none).1 = .INTEGER ∧
    (map_sas_type_to_sqlalchemy "num" (.pnum 8) none none).1 = .FLOAT ∧
    (map_sas_type_to_sqlalchemy "char" (.pnum 16) (some "$HEX16.") none).1 = .VARBINARY ∧
    (map_sas_type_to_sqlalchemy "num" (.pnum 8) (some "DATETIME20.") none).1 = .sasDate ∧
    (map_sas_type_to_sqlalchemy "num" (.pnum 8) (some "DATETIME20.") none).1 ≠ .sasDateTime := by
  decide

/-- C8: calling the type mapper with a cache agrees with calling it
without one: the first call with the empty cache computes exactly the
uncached type and memoizes it under the `(col_type, length, format)`
key, and a repeated call with the resulting cache returns the memoized
value and leaves the cache unchanged. -/
theorem sas_C8_cache_equivalence (colType : String) (length : PyVal) (formatStr : Option String) :
    (map_sas_type_to_sqlalchemy colType length formatStr (some [])).1 =
      (map_sas_type_to_sqlalchemy colType length formatStr none).1 ∧
    (map_sas_type_to_sqlalchemy colType length formatStr (some [])).2 =
      some [((colType, length, formatStr),
        (map_sas_type_to_sqlalchemy colType length formatStr none).1)] ∧
    map_sas_type_to_sqlalchemy colType length formatStr
        (map_sas_type_to_sqlalchemy colType length formatStr (some [])).2 =
      ((map_sas_type_to_sqlalchemy colType length formatStr (some [])).1,
       (map_sas_type_to_sqlalchemy colType length formatStr (some [])).2) := by
  refine ⟨rfl, rfl, ?_⟩
  simp [map_sas_type_to_sqlalchemy, cacheFind, cacheStore]

/-- C9: for a non-empty name `normalize_name` uppercases and strips
trailing whitespace, `denormalize_name` lowercases; `None` and the
empty string pass through both unchanged. -/
theorem sas_C9_name_normalization (s : String) (h : s ≠ "") :
    normalize_name (some s) = some (pyRstrip (pyUpper s)) ∧
    denormalize_name (some s) = some (pyLower s) ∧
    normalize_name none = none ∧
    denormalize_name none = none ∧
    normalize_name (some "") = some "" ∧
    denormalize_name (some "") = some "" := by
  refine ⟨?_, ?_, rfl, rfl, rfl, rfl⟩ <;>
    simp [normalize_name, denormalize_name, strTruthy, h]

/-- Witness for C9 at the concrete name `"Sales "`. -/
theorem sas_C9_name_normalization_witness :
    normalize_name (some "Sales ") = some (pyRstrip (pyUpper "Sales ")) ∧
    denormalize_name (some "Sales ") = some (pyLower "Sales ") ∧
    normalize_name none = none ∧
    denormalize_name none = none ∧
    normalize_name (some "") = some "" ∧
    denormalize_name (some "") = some "" :=
  sas_C9_name_normalization "Sales " (by decide)

/-- C1: evaluation of `create_connect_args` — the returned driver
properties never carry a `libname` entry, whatever the URL and whether
the log4j configuration is present: the keys are exactly `user`,
`password`, `applyFormats` (plus `log4j.configuration` when the config
file exists).  In particular the URL with path-segment library `mylib`
yields driver args without it, contradicting the repository's own tests
`test_create_connect_args_path_libname` / `_query_libname`. -/
theorem sas_C1_driver_args_lack_libname (log4j : Option (String × String)) (url : SAUrl) :
    lookupProp (create_connect_args log4j url).driver_args "libname" = none ∧
    (create_connect_args log4j url).driver_args.map Prod.fst =
      ["user", "password", "applyFormats"] ++
        (match log4j with
         | some _ => ["log4j.configuration"]
         | none => []) ∧
    create_connect_args none ⟨some "host", some 1234, some "user", some "pass", some "mylib", []⟩ =
      { jclassname := "com.sas.rio.MVADriver"
        url := "jdbc:sasiom://host:1234"
        driver_args := [("user", "user"), ("password", "pass"), ("applyFormats", "false")]
        jars := none } := by
  refine ⟨?_, ?_, by decide⟩ <;> cases log4j <;> simp [create_connect_args, lookupProp]

/-- C6: when `dbschema` is unset at construction it is resolved from the
DSN by the URL path segment first; only when the path carries no
library name does a non-empty `libname` query parameter fill it. -/
theorem sas_C6_dbschema_path_then_query (u : SAUrl) :
    (∀ p : String, u.database = some p → p ≠ "" → sasInitDbschema none (some u) = some p) ∧
    (strTruthy u.database = false →
      ∀ l : String, lookupProp u.query "libname" = some l → l ≠ "" →
        sasInitDbschema none (some u) = some l) := by
  constructor
  · intro p hp hne
    have hb : (p != "") = true := bne_iff_ne.mpr hne
    have hbase : baseSqlDbschema none u = some p := by
      simp [baseSqlDbschema, strTruthy, hp, hb]
    simp [sasInitDbschema, hbase, strTruthy, hb]
  · intro hdb l hl hne
    have hbase : baseSqlDbschema none u = none := by
      cases hu : u.database with
      | none => simp [baseSqlDbschema, strTruthy, hu]
      | some p =>
        rw [hu] at hdb
        simp only [strTruthy] at hdb
        simp [baseSqlDbschema, strTruthy, hu, hdb]
    have hb : (l != "") = true := bne_iff_ne.mpr hne
    simp [sasInitDbschema, hbase, strTruthy, hl, hb]

/-- C5: when every execution against the connection raises, each of the
seven introspection methods returns its empty or negative result — the
empty list, a dict with a null field, or `False` — instead of
propagating; the methods are total functions of the connection
behaviour, so no other behaviour can make them raise either. -/
theorem sas_C5_introspection_degrades (e : PyErr) (conn : Conn) (cache : TypeCache)
    (tableName : String) (schema dflt : Option String)
    (h : ∀ q, conn q = .error e) :
    get_schema_names conn = [] ∧
    get_table_names conn schema dflt = [] ∧
    get_view_names conn schema dflt = [] ∧
    get_columns cache conn tableName schema dflt = ([], cache) ∧
    get_indexes conn tableName schema dflt = [] ∧
    get_table_comment conn tableName schema dflt = { text := none } ∧
    has_table conn tableName schema dflt = false := by
  refine ⟨?_, ?_, ?_, ?_, ?_, ?_, ?_⟩
  · unfold get_schema_names
    rw [h]
    rfl
  · unfold get_table_names
    rw [h]
    rfl
  · unfold get_view_names
    rw [h]
    rfl
  · unfold get_columns
    rw [h]
  · unfold get_indexes
    rw [h]
    rfl
  · unfold get_table_comment
    rw [h]
    rfl
  · unfold has_table
    rw [h]
    rfl

/-- Witness for C5: the always-raising connection `failingConn`. -/
theorem sas_C5_introspection_witness :
    get_schema_names failingConn = [] ∧
    get_table_names failingConn none none = [] ∧
    get_view_names failingConn none none = [] ∧
    get_columns [] failingConn "SOMETBL" none none = ([], []) ∧
    get_indexes failingConn "SOMETBL" none none = [] ∧
    get_table_comment failingConn "SOMETBL" none none = { text := none } ∧
    has_table failingConn "SOMETBL" none none = false :=
  sas_C5_introspection_degrades (.dbError "connection failure") failingConn [] "SOMETBL"
    none none (fun _ => rfl)

/-- C7: a property whose external mapping is missing, or present with a
falsy name, makes `get_column` raise `NoExternalName` for a plain data
type and for a non-inherited relationship — for every table, i.e.
before any column lookup; a relationship marked inherited whose
external mapping exists but carries no name raises nothing and
returns no column, again independently of the table. -/
theorem sas_C7_no_external_name (prop : ModelProp) (t1 t2 : SATable) :
    (prop.external = none →
      get_column_dtype prop t1 = .error (.noExternalName prop.pname) ∧
      get_column_ref false prop t1 = .error (.noExternalName prop.pname) ∧
      get_column_ref true prop t1 = .error (.noExternalName prop.pname)) ∧
    (∀ ext : PropExternal, prop.external = some ext → strTruthy ext.name = false →
      get_column_dtype prop t1 = .error (.noExternalName prop.pname) ∧
      get_column_ref false prop t1 = .error (.noExternalName prop.pname) ∧
      get_column_ref true prop t1 = .ok none ∧
      get_column_ref true prop t1 = get_column_ref true prop t2) := by
  constructor
  · intro h
    refine ⟨?_, ?_, ?_⟩ <;> simp [get_column_dtype, get_column_ref, h]
  · intro ext h hname
    refine ⟨?_, ?_, ?_, ?_⟩ <;> simp [get_column_dtype, get_column_ref, h, hname]

/-- Witness for C7: a property with no external mapping at all, and an
inherited-relationship property whose mapping exists but has no name. -/
theorem sas_C7_no_external_name_witness :
    (get_column_dtype ⟨"p1", "m1", none⟩ ⟨[⟨"COL1"⟩]⟩ = .error (.noExternalName "p1") ∧
     get_column_ref false ⟨"p1", "m1", none⟩ ⟨[⟨"COL1"⟩]⟩ = .error (.noExternalName "p1") ∧
     get_column_ref true ⟨"p1", "m1", none⟩ ⟨[⟨"COL1"⟩]⟩ = .error (.noExternalName "p1")) ∧
    (get_column_dtype ⟨"p2", "m2", some ⟨none⟩⟩ ⟨[⟨"COL1"⟩]⟩ = .error (.noExternalName "p2") ∧
     get_column_ref false ⟨"p2", "m2", some ⟨none⟩⟩ ⟨[⟨"COL1"⟩]⟩ =
       .error (.noExternalName "p2") ∧
     get_column_ref true ⟨"p2", "m2", some ⟨none⟩⟩ ⟨[⟨"COL1"⟩]⟩ = .ok none ∧
     get_column_ref true ⟨"p2", "m2", some ⟨none⟩⟩ ⟨[⟨"COL1"⟩]⟩ =
       get_column_ref true ⟨"p2", "m2", some ⟨none⟩⟩ ⟨[]⟩) :=
  ⟨(sas_C7_no_external_name ⟨"p1", "m1", none⟩ ⟨[⟨"COL1"⟩]⟩ ⟨[]⟩).1 rfl,
   (sas_C7_no_external_name ⟨"p2", "m2", some ⟨none⟩⟩ ⟨[⟨"COL1"⟩]⟩ ⟨[]⟩).2 ⟨none⟩ rfl rfl⟩

/-- Binding a successful `Except` value runs the continuation. -/
theorem except_ok_bind {ε α β : Type} (a : α) (f : α → Except ε β) :
    (Except.ok a >>= f : Except ε β) = f a := rfl

/-- A non-empty schema argument resolves to its own uppercased, escaped
library name. -/
theorem libnameVal_some (lib : String) (dflt : Option String) (h : lib ≠ "") :
    libnameVal (some lib) dflt = escape_param (some (pyUpper lib)) := by
  simp [libnameVal, resolvedSchema, strTruthy, bne_iff_ne.mpr h]

/-- Row post-processing of `get_view_names` on rows of the catalog
shape: it succeeds and yields the stripped member names. -/
theorem mapM_viewRows (l : List DictEntry) :
    ((l.map (fun en => [PyVal.pstr en.memname])).mapM (fun r => do
        let v ← rowGet r 0
        optStrip (safe_value_to_str v)) : Except PyErr (List String)) =
      .ok (l.map (fun en => pyStrip en.memname)) := by
  induction l with
  | nil => rfl
  | cons en rest ih =>
    rw [List.map_cons, List.mapM_cons, show ((do
        let v ← rowGet [PyVal.pstr en.memname] 0
        optStrip (safe_value_to_str v)) : Except PyErr String) =
      Except.ok (pyStrip en.memname) from rfl, except_ok_bind, ih, except_ok_bind]
    rfl

/-- C10: `has_table` restricts its count to members of type `DATA`,
while `get_view_names` selects members of type `VIEW`: against a
catalog in which the member exists only as a view (and a connection
answering the two literal queries with that catalog's rows), the
existence check returns `False` even though the view listing contains
the member. -/
theorem sas_C10_view_only_member (cat : List DictEntry) (conn : Conn)
    (lib mem : String) (dflt : Option String)
    (hlib : lib ≠ "")
    (h1 : conn (hasTableQuery (escape_param (some (pyUpper lib))) (memnameVal mem)) =
      .ok [[.pnum (dictDataCount cat (pyUpper lib) (pyUpper mem) : Int)]])
    (h2 : conn (viewNamesQuery (escape_param (some (pyUpper lib)))) =
      .ok (dictViewRows cat (pyUpper lib)))
    (hOnlyView : cat.filter (fun en => en.libname == pyUpper lib &&
        en.memname == pyUpper mem && en.memtype == "DATA") = [])
    (hView : ∃ en, en ∈ cat ∧ en.libname = pyUpper lib ∧ en.memname = pyUpper mem ∧
        en.memtype = "VIEW")
    (hclean : pyStrip (pyUpper mem) = pyUpper mem) :
    has_table conn mem (some lib) dflt = false ∧
    pyUpper mem ∈ get_view_names conn (some lib) dflt := by
  have hq : libnameVal (some lib) dflt = escape_param (some (pyUpper lib)) :=
    libnameVal_some lib dflt hlib
  constructor
  · unfold has_table
    rw [hq, h1]
    have hcnt : dictDataCount cat (pyUpper lib) (pyUpper mem) = 0 := by
      unfold dictDataCount
      rw [hOnlyView]
      rfl
    rw [hcnt]
    rfl
  · unfold get_view_names
    rw [hq, h2]
    unfold dictViewRows
    rw [except_ok_bind, mapM_viewRows]
    obtain ⟨en, hmem, hl2, hm2, ht2⟩ := hView
    have hp : en ∈ cat.filter (fun en => en.libname == pyUpper lib && en.memtype == "VIEW") := by
      rw [List.mem_filter]
      refine ⟨hmem, ?_⟩
      rw [hl2, ht2]
      simp
    have hin : pyStrip en.memname ∈
        (cat.filter (fun en => en.libname == pyUpper lib && en.memtype == "VIEW")).map
          (fun en => pyStrip en.memname) :=
      List.mem_map_of_mem _ hp
    rw [hm2, hclean] at hin
    exact hin

/-- Witness for C10: the catalog holding only the view `LIB1.V1`. -/
theorem sas_C10_view_only_member_witness :
    has_table viewOnlyConn "v1" (some "lib1") none = false ∧
    pyUpper "v1" ∈ get_view_names viewOnlyConn (some "lib1") none :=
  sas_C10_view_only_member [⟨"LIB1", "V1", "VIEW"⟩] viewOnlyConn "lib1" "v1" none
    (by decide) rfl rfl rfl
    ⟨⟨"LIB1", "V1", "VIEW"⟩, List.Mem.head _, rfl, rfl, rfl⟩ rfl

/-- Witness for C6: a URL with both a path library and a query
parameter resolves to the path value, one with only the query
parameter resolves to it. -/
theorem sas_C6_dbschema_witness :
    sasInitDbschema none
      (some ⟨some "h", some 80, none, none, some "mylib", [("libname", "qlib")]⟩) = some "mylib" ∧
    sasInitDbschema none
      (some ⟨some "h", some 80, none, none, none, [("libname", "qlib")]⟩) = some "qlib" :=
  ⟨(sas_C6_dbschema_path_then_query _).1 "mylib" rfl (by decide),
   (sas_C6_dbschema_path_then_query _).2 (by decide) "qlib" rfl (by decide)⟩
